import Mathlib

/-!
Verification of the pagination/accumulation loops of
`src/REST/PhotoFrame/photoApi.js` (functions `libraryApiSearch` and
`libraryApiGetAlbums`).

Shallow embedding notes:
* The HTTP transport is an external collaborator.  We model the sequence of
  transport outcomes the API would serve as a list `stream` of
  `Except Failure …` values: `Except.ok r` is a parsed JSON response body
  (per the transport contract a successful call yields a parsed JSON object,
  hence non-null), `Except.error err` is a thrown failure object.  Each loop
  iteration consumes the next element; if the loop would issue a request
  beyond the end of the list the model returns the artificial outcome
  `Outcome.streamEnd` (that request still counts as issued).
* JavaScript sparse arrays may contain `null`/`undefined` entries, so page
  item lists and the accumulated lists are `List (Option _)`, mirroring the
  source's `.filter(x => x)` / `.filter(x => !!x)` steps literally.
* `parameters` is a mutable object shared with the caller; mutation is made
  explicit: the final `parameters` value is part of the returned record, and
  the snapshot of `parameters` sent with each issued request is returned as
  a list (the source serializes the current object state at each request).
* The logger collaborator is purely observational (no control flow) and is
  omitted.
* `config.js` is the configuration collaborator; its fields used by the two
  functions (`photosToLoad`, `searchPageSize`, `albumPageSize`) are
  universally quantified as a `Config` record, since the loops are
  parametric in them.
* JS loose comparison `parameters.pageToken != null` is false exactly for
  `null` and `undefined`, both modelled as `none`.
-/

/-- A media item as returned by the remote API: a record that may or may not
carry a `mimeType` string.  The `id` field stands for the rest of the
remote-defined payload. -/
structure MediaItem where
  id : Nat
  mimeType : Option String := none
deriving DecidableEq, Repr

/-- An album as returned by the remote API (opaque remote-defined record). -/
structure Album where
  id : Nat
deriving DecidableEq, Repr

/-- A search response body (`result` in `libraryApiSearch`): the
`mediaItems` array may be absent, and its entries may be null/invalid
(`Option MediaItem`). -/
structure Page where
  mediaItems : Option (List (Option MediaItem)) := none
  nextPageToken : Option String := none
deriving DecidableEq, Repr

/-- An album-list response body (`result` in `libraryApiGetAlbums`). -/
structure AlbumPage where
  albums : Option (List (Option Album)) := none
  nextPageToken : Option String := none
deriving DecidableEq, Repr

/-- The normalized error record `{ name, code, message }`.  Every field can
be `undefined` in JS, hence `Option`. -/
structure ErrorShape where
  name : Option String := none
  code : Option Int := none
  message : Option String := none
deriving DecidableEq, Repr

/-- The value of a thrown failure's `error` field, which may itself carry a
nested `error` record (the `StatusCodeError` case of request-promise). -/
structure ErrBody where
  error : Option ErrorShape := none
deriving DecidableEq, Repr

/-- A failure object thrown by the transport (`err` in the catch blocks).
`error := none` models `err.error` being `undefined`/`null`. -/
structure Failure where
  name : Option String := none
  statusCode : Option Int := none
  message : Option String := none
  error : Option ErrBody := none
deriving DecidableEq, Repr

/-- A JavaScript runtime exception raised by the embedded code itself.  The
only one reachable here is the `TypeError` from reading a property of
`undefined`. -/
inductive JsError where
  | typeError
deriving DecidableEq, Repr

/-- The search request parameters object.  `id` stands for the caller's
filter criteria (album id / content filters), which the loops carry through
untouched; `pageSize` and `pageToken` are the fields the source writes. -/
structure SearchParameters where
  filters : Option String := none
  pageSize : Option Int := none
  pageToken : Option String := none
deriving DecidableEq, Repr

/-- The album request parameters object, built locally by
`libraryApiGetAlbums` as `{ pageSize: config.albumPageSize }`. -/
structure AlbumParameters where
  pageSize : Int
  pageToken : Option String := none
deriving DecidableEq, Repr

/-- The configuration collaborator's fields used by `photoApi.js`
(`config.searchPageSize`, `config.photosToLoad`, `config.albumPageSize`). -/
structure Config where
  photosToLoad : Int
  searchPageSize : Int
  albumPageSize : Int
deriving DecidableEq, Repr

/-- Return value of `libraryApiSearch`: `{ photos, parameters, error }`. -/
structure SearchResult where
  photos : List (Option MediaItem)
  parameters : SearchParameters
  error : Option ErrorShape := none
deriving DecidableEq, Repr

/-- Return value of `libraryApiGetAlbums`: `{ albums, error }`. -/
structure AlbumsResult where
  albums : List (Option Album)
  error : Option ErrorShape := none
deriving DecidableEq, Repr

/-- How a call to one of the accumulators ends: a normal return, a
propagated JS exception, or — a model artifact — the response stream ran
out before the loop stopped. -/
inductive Outcome (α : Type) where
  | returns (r : α)
  | throws (e : JsError)
  | streamEnd
deriving DecidableEq, Repr

/-- JS `s.startsWith(p)` on strings, modelled on the character sequence. -/
def strStartsWith (s p : String) : Bool :=
  p.data.isPrefixOf s.data

/-- `x => x` filter step of `libraryApiSearch` (line 49): JS truthiness of a
possibly-missing array entry. -/
def isValidItem (x : Option MediaItem) : Bool :=
  x.isSome

/-- `x => x.mimeType && x.mimeType.startsWith('image/')` filter step (line
51).  A missing `mimeType` is falsy; an empty string is also falsy in JS,
but `"".startsWith "image/"` is `false` anyway, so one branch covers both. -/
def isImageItem (x : Option MediaItem) : Bool :=
  match x with
  | none => false
  | some m =>
    match m.mimeType with
    | none => false
    | some s => strStartsWith s "image/"

/-- Lines 47–52: `result && result.mediaItems ? result.mediaItems.filter(x
=> x).filter(x => …) : []`.  `result` is a parsed JSON object, hence truthy;
a present-but-empty array is truthy in JS, so only the absence of
`mediaItems` selects the `[]` branch. -/
def filterSearchItems (result : Page) : List (Option MediaItem) :=
  match result.mediaItems with
  | some xs => (xs.filter isValidItem).filter isImageItem
  | none => []

/-- The catch blocks (lines 72–73 and 121–122):
`error = err.error.error || { name: err.name, code: err.statusCode,
message: err.message }`.  Reading `.error` of an `undefined` `err.error`
raises a `TypeError` inside the catch block, which propagates. -/
def normalizeError (err : Failure) : Except JsError ErrorShape :=
  match err.error with
  | none => Except.error JsError.typeError
  | some body =>
    match body.error with
    | some e => Except.ok e
    | none => Except.ok { name := err.name, code := err.statusCode, message := err.message }

/-- The do/while loop of `libraryApiSearch` (lines 28–66) together with the
surrounding try/catch and the final `return { photos, parameters, error }`.
The second component of the result is the list of `parameters` snapshots
sent with each issued request, in order. -/
def searchLoop (cfg : Config) :
    List (Except Failure Page) → List (Option MediaItem) → SearchParameters →
    Outcome SearchResult × List SearchParameters
  | [], _photos, params => (Outcome.streamEnd, [params])
  | Except.error err :: _rest, photos, params =>
    (match normalizeError err with
     | Except.ok e => Outcome.returns { photos := photos, parameters := params, error := some e }
     | Except.error je => Outcome.throws je,
     [params])
  | Except.ok result :: rest, photos, params =>
    let items := filterSearchItems result
    let photos' := photos ++ items
    let params' := { params with pageToken := result.nextPageToken }
    if ((photos'.length : Int) < cfg.photosToLoad : Bool) && params'.pageToken.isSome then
      let r := searchLoop cfg rest photos' params'
      (r.1, params :: r.2)
    else
      (Outcome.returns { photos := photos', parameters := params', error := none }, [params])

/-- `photoApi.libraryApiSearch` (lines 18–79): sets
`parameters.pageSize = config.searchPageSize` on the caller's object (all
other fields, `pageToken` included, are left as the caller passed them) and
runs the accumulation loop starting from an empty `photos` list. -/
def libraryApiSearch (cfg : Config) (parameters : SearchParameters)
    (stream : List (Except Failure Page)) :
    Outcome SearchResult × List SearchParameters :=
  searchLoop cfg stream [] { parameters with pageSize := some cfg.searchPageSize }

/-- The do/while loop of `libraryApiGetAlbums` (lines 92–115) with its
try/catch and final `return { albums, error }`. -/
def albumLoop :
    List (Except Failure AlbumPage) → List (Option Album) → AlbumParameters →
    Outcome AlbumsResult × List AlbumParameters
  | [], _albums, params => (Outcome.streamEnd, [params])
  | Except.error err :: _rest, albums, params =>
    (match normalizeError err with
     | Except.ok e => Outcome.returns { albums := albums, error := some e }
     | Except.error je => Outcome.throws je,
     [params])
  | Except.ok result :: rest, albums, params =>
    let albums' := match result.albums with
      | some xs => albums ++ xs.filter (fun x => x.isSome)
      | none => albums
    let params' := { params with pageToken := result.nextPageToken }
    if params'.pageToken.isSome then
      let r := albumLoop rest albums' params'
      (r.1, params :: r.2)
    else
      (Outcome.returns { albums := albums', error := none }, [params])

/-- `photoApi.libraryApiGetAlbums` (lines 83–128): builds a fresh local
`parameters = { pageSize: config.albumPageSize }` and runs the loop. -/
def libraryApiGetAlbums (cfg : Config) (stream : List (Except Failure AlbumPage)) :
    Outcome AlbumsResult × List AlbumParameters :=
  albumLoop stream [] { pageSize := cfg.albumPageSize }

/-! Derived notions used to state the specification theorems. -/

/-- Concatenation of the filtered items of a list of search pages: what the
accumulated `photos` list should be after fetching exactly these pages. -/
def filteredConcat : List Page → List (Option MediaItem)
  | [] => []
  | p :: ps => filterSearchItems p ++ filteredConcat ps

/-- The items an album page contributes to the accumulator (lines 105–111):
the non-null entries of `result.albums`, or nothing when the field is
absent. -/
def filterAlbumItems (result : AlbumPage) : List (Option Album) :=
  match result.albums with
  | some xs => xs.filter (fun x => x.isSome)
  | none => []

/-- Concatenation of the filtered entries of a list of album pages. -/
def albumsConcat : List AlbumPage → List (Option Album)
  | [] => []
  | p :: ps => filterAlbumItems p ++ albumsConcat ps

/-- `allContinueB cfg photos pages` holds when, starting from accumulated
`photos`, the search loop's continue condition (line 65–66) is satisfied
after processing each page of `pages` in turn — i.e. a run over these pages
reaches the next request every time. -/
def allContinueB (cfg : Config) : List (Option MediaItem) → List Page → Bool
  | _, [] => true
  | photos, p :: ps =>
    let photos' := photos ++ filterSearchItems p
    (((photos'.length : Int) < cfg.photosToLoad : Bool) && p.nextPageToken.isSome)
      && allContinueB cfg photos' ps

/-! Concrete fixtures used by the scenario theorems, witnesses and
counterexamples. -/

/-- A valid image media item. -/
def imgItem (n : Nat) : Option MediaItem :=
  some { id := n, mimeType := some "image/jpeg" }

/-- Search pages for the threshold scenario: three pages of three valid
images each, the third one with no next-page token. -/
def pageA : Page :=
  { mediaItems := some [imgItem 1, imgItem 2, imgItem 3], nextPageToken := some "t1" }

def pageB : Page :=
  { mediaItems := some [imgItem 4, imgItem 5, imgItem 6], nextPageToken := some "t2" }

def pageC : Page :=
  { mediaItems := some [imgItem 7, imgItem 8, imgItem 9], nextPageToken := none }

/-- A page mixing a null entry, a video, a valid image and an item without
`mimeType`. -/
def pageMixed : Page :=
  { mediaItems := some [none, some { id := 20, mimeType := some "video/mp4" },
                        imgItem 21, some { id := 22 }],
    nextPageToken := none }

/-- Configuration of the threshold scenario: `photosToLoad = 5`,
`searchPageSize = 3`. -/
def cfgC2 : Config :=
  { photosToLoad := 5, searchPageSize := 3, albumPageSize := 50 }

/-- A failure object whose `error` field is `undefined` (e.g. a plain
JavaScript `Error`). -/
def errPlain : Failure :=
  { name := some "Error", statusCode := none, message := some "boom", error := none }

/-- The structured remote error of the 403 scenario. -/
def shapeX : ErrorShape :=
  { name := some "X", code := some 403, message := some "Forbidden" }

/-- A `StatusCodeError`-like failure carrying `err.error.error = shapeX`. -/
def errX : Failure :=
  { name := some "StatusCodeError", statusCode := some 403,
    message := some "403 - Forbidden", error := some { error := some shapeX } }

/-- Configuration and pages for the pagination-state scenario: threshold 3,
two pages of two images, both with next-page tokens, so the loop stops with
a token still in hand. -/
def cfg9 : Config :=
  { photosToLoad := 3, searchPageSize := 2, albumPageSize := 50 }

def pg1 : Page :=
  { mediaItems := some [imgItem 1, imgItem 2], nextPageToken := some "u1" }

def pg2 : Page :=
  { mediaItems := some [imgItem 3, imgItem 4], nextPageToken := some "u2" }

def stream9 : List (Except Failure Page) :=
  [Except.ok pg1, Except.ok pg2]

/-- The value `libraryApiSearch cfg9 {} stream9` returns. -/
def r9 : SearchResult :=
  { photos := [imgItem 1, imgItem 2, imgItem 3, imgItem 4],
    parameters := { pageSize := some 2, pageToken := some "u2" },
    error := none }

/-- A non-null album entry. -/
def albItem (n : Nat) : Option Album :=
  some { id := n }

/-- Album pages for the collect-all scenario: three pages of five albums
each, the last one with no next-page token. -/
def apage1 : AlbumPage :=
  { albums := some [albItem 1, albItem 2, albItem 3, albItem 4, albItem 5],
    nextPageToken := some "a1" }

def apage2 : AlbumPage :=
  { albums := some [albItem 6, albItem 7, albItem 8, albItem 9, albItem 10],
    nextPageToken := some "a2" }

def apage3 : AlbumPage :=
  { albums := some [albItem 11, albItem 12, albItem 13, albItem 14, albItem 15],
    nextPageToken := none }

/-- An album page containing a null entry next to a valid album. -/
def apageN : AlbumPage :=
  { albums := some [none, albItem 30], nextPageToken := none }

/-- The search loop is a do/while: it always issues at least one request. -/
theorem searchLoop_sent_length_pos (cfg : Config) (stream : List (Except Failure Page))
    (photos : List (Option MediaItem)) (params : SearchParameters) :
    1 ≤ (searchLoop cfg stream photos params).2.length := by
  match stream with
  | [] => simp [searchLoop]
  | Except.error err :: rest => simp [searchLoop]
  | Except.ok result :: rest =>
    simp only [searchLoop]
    split <;> simp

/-- The album loop is a do/while: it always issues at least one request. -/
theorem albumLoop_sent_length_pos (stream : List (Except Failure AlbumPage))
    (albums : List (Option Album)) (params : AlbumParameters) :
    1 ≤ (albumLoop stream albums params).2.length := by
  match stream with
  | [] => simp [albumLoop]
  | Except.error err :: rest => simp [albumLoop]
  | Except.ok result :: rest =>
    simp only [albumLoop]
    split <;> simp

/-- Every item kept by the two search filters passes the image test. -/
theorem mem_filterSearchItems {x : Option MediaItem} {result : Page}
    (h : x ∈ filterSearchItems result) : isImageItem x = true := by
  unfold filterSearchItems at h
  cases hm : result.mediaItems with
  | none => rw [hm] at h; simp at h
  | some xs => rw [hm] at h; exact (List.mem_filter.mp h).2

/-- Every entry kept by the album filter is non-null. -/
theorem mem_filterAlbumItems {x : Option Album} {result : AlbumPage}
    (h : x ∈ filterAlbumItems result) : x.isSome = true := by
  unfold filterAlbumItems at h
  cases hm : result.albums with
  | none => rw [hm] at h; simp at h
  | some xs => rw [hm] at h; exact (List.mem_filter.mp h).2

/-- Loop invariant: if every accumulated photo passes the image test, so
does every photo of a normal return (the error path returns the accumulator
unchanged). -/
theorem searchLoop_returns_photos_valid (cfg : Config)
    (stream : List (Except Failure Page)) (photos : List (Option MediaItem))
    (params : SearchParameters) (r : SearchResult) (sents : List SearchParameters)
    (hinv : ∀ x ∈ photos, isImageItem x = true)
    (h : searchLoop cfg stream photos params = (Outcome.returns r, sents)) :
    ∀ x ∈ r.photos, isImageItem x = true := by
  induction stream generalizing photos params r sents with
  | nil => simp [searchLoop] at h
  | cons hd rest ih =>
    cases hd with
    | error err =>
      simp only [searchLoop] at h
      split at h
      case _ e heq =>
        obtain ⟨h1, -⟩ := Prod.mk.injEq .. ▸ h
        cases h1
        exact hinv
      case _ je heq =>
        simp at h
    | ok result =>
      simp only [searchLoop] at h
      split at h
      case isTrue hc =>
        rcases hsl : searchLoop cfg rest (photos ++ filterSearchItems result)
            { params with pageToken := result.nextPageToken } with ⟨o, snt⟩
        rw [hsl] at h
        obtain ⟨h1, h2⟩ := Prod.mk.injEq .. ▸ h
        refine ih (photos ++ filterSearchItems result)
          { params with pageToken := result.nextPageToken } r snt ?_ ?_
        · intro x hx
          rcases List.mem_append.mp hx with hx | hx
          · exact hinv x hx
          · exact mem_filterSearchItems hx
        · rw [hsl]
          exact congrArg (fun z => (z, snt)) h1
      case isFalse hc =>
        obtain ⟨h1, -⟩ := Prod.mk.injEq .. ▸ h
        cases h1
        intro x hx
        rcases List.mem_append.mp hx with hx | hx
        · exact hinv x hx
        · exact mem_filterSearchItems hx

/-- The album loop body, with the accumulated-albums conditional rewritten
as an unconditional append of `filterAlbumItems`. -/
theorem albumLoop_cons_ok (result : AlbumPage) (rest : List (Except Failure AlbumPage))
    (albums : List (Option Album)) (params : AlbumParameters) :
    albumLoop (Except.ok result :: rest) albums params =
      (let albums' := albums ++ filterAlbumItems result
       let params' := { params with pageToken := result.nextPageToken }
       if params'.pageToken.isSome then
         let r := albumLoop rest albums' params'
         (r.1, params :: r.2)
       else
         (Outcome.returns { albums := albums', error := none }, [params])) := by
  cases hm : result.albums <;> simp [albumLoop, filterAlbumItems, hm]

/-- Loop invariant: if every accumulated entry is non-null, so is every
entry of a normal return. -/
theorem albumLoop_returns_albums_valid (stream : List (Except Failure AlbumPage))
    (albums : List (Option Album)) (params : AlbumParameters)
    (r : AlbumsResult) (sents : List AlbumParameters)
    (hinv : ∀ x ∈ albums, x.isSome = true)
    (h : albumLoop stream albums params = (Outcome.returns r, sents)) :
    ∀ x ∈ r.albums, x.isSome = true := by
  induction stream generalizing albums params r sents with
  | nil => simp [albumLoop] at h
  | cons hd rest ih =>
    cases hd with
    | error err =>
      simp only [albumLoop] at h
      split at h
      case _ e heq =>
        obtain ⟨h1, -⟩ := Prod.mk.injEq .. ▸ h
        cases h1
        exact hinv
      case _ je heq => simp at h
    | ok result =>
      simp only [albumLoop_cons_ok] at h
      split at h
      case isTrue hc =>
        rcases hsl : albumLoop rest (albums ++ filterAlbumItems result)
            { params with pageToken := result.nextPageToken } with ⟨o, snt⟩
        rw [hsl] at h
        obtain ⟨h1, h2⟩ := Prod.mk.injEq .. ▸ h
        refine ih (albums ++ filterAlbumItems result)
          { params with pageToken := result.nextPageToken } r snt ?_ ?_
        · intro x hx
          rcases List.mem_append.mp hx with hx | hx
          · exact hinv x hx
          · exact mem_filterAlbumItems hx
        · rw [hsl]
          exact congrArg (fun z => (z, snt)) h1
      case isFalse hc =>
        obtain ⟨h1, -⟩ := Prod.mk.injEq .. ▸ h
        cases h1
        intro x hx
        rcases List.mem_append.mp hx with hx | hx
        · exact hinv x hx
        · exact mem_filterAlbumItems hx

/-- On a failure-free stream, a normal return's `photos` is the initial
accumulator followed by the filtered items of exactly the pages fetched
(one page per issued request), and its `error` is null. -/
theorem searchLoop_map_ok_spec (cfg : Config) (pages : List Page)
    (photos : List (Option MediaItem)) (params : SearchParameters)
    (r : SearchResult) (sents : List SearchParameters)
    (h : searchLoop cfg (pages.map Except.ok) photos params = (Outcome.returns r, sents)) :
    r.photos = photos ++ filteredConcat (pages.take sents.length) ∧ r.error = none := by
  induction pages generalizing photos params r sents with
  | nil => simp [searchLoop] at h
  | cons p ps ih =>
    simp only [List.map_cons, searchLoop] at h
    split at h
    case isTrue hc =>
      rcases hsl : searchLoop cfg (ps.map Except.ok) (photos ++ filterSearchItems p)
          { params with pageToken := p.nextPageToken } with ⟨o, snt⟩
      rw [hsl] at h
      obtain ⟨h1, h2⟩ := Prod.mk.injEq .. ▸ h
      obtain ⟨hp, he⟩ := ih (photos ++ filterSearchItems p)
        { params with pageToken := p.nextPageToken } r snt
        (by rw [hsl]; exact congrArg (fun z => (z, snt)) h1)
      subst h2
      refine ⟨?_, he⟩
      rw [hp]
      simp [filteredConcat, List.append_assoc]
    case isFalse hc =>
      obtain ⟨h1, h2⟩ := Prod.mk.injEq .. ▸ h
      cases h1
      subst h2
      simp [filteredConcat]

/-- When the search loop continues through `pages` and the next request
throws a failure whose `error` field is defined, the call returns the items
accumulated so far together with a non-null normalized error, having issued
exactly one request per page plus the failing one — independently of any
later responses. -/
theorem searchLoop_failure_run (cfg : Config) (pages : List Page) (err : Failure)
    (body : ErrBody) (rest : List (Except Failure Page))
    (photos : List (Option MediaItem)) (params : SearchParameters)
    (hb : err.error = some body)
    (hcont : allContinueB cfg photos pages = true) :
    ∃ e ps' sents,
      searchLoop cfg (pages.map Except.ok ++ Except.error err :: rest) photos params
        = (Outcome.returns { photos := photos ++ filteredConcat pages,
                             parameters := ps', error := some e }, sents)
      ∧ sents.length = pages.length + 1 := by
  induction pages generalizing photos params with
  | nil =>
    refine ⟨match body.error with
            | some e => e
            | none => { name := err.name, code := err.statusCode, message := err.message },
            params, [params], ?_, rfl⟩
    simp only [List.map_nil, List.nil_append, searchLoop, normalizeError, hb]
    cases hbe : body.error <;> simp [filteredConcat, hbe]
  | cons p ps ih =>
    simp only [allContinueB, Bool.and_eq_true] at hcont
    obtain ⟨hc1, hc2⟩ := hcont
    obtain ⟨e, ps', sents, hrec, hlen⟩ := ih
      (photos ++ filterSearchItems p) { params with pageToken := p.nextPageToken } hc2
    refine ⟨e, ps', params :: sents, ?_, by simp [hlen]⟩
    simp only [List.map_cons, List.cons_append, searchLoop, List.append_eq]
    rw [if_pos]
    · rw [hrec]
      simp [filteredConcat, List.append_assoc]
    · simpa using hc1

/-- Album analogue of `searchLoop_failure_run`. -/
theorem albumLoop_failure_run (pages : List AlbumPage) (err : Failure)
    (body : ErrBody) (rest : List (Except Failure AlbumPage))
    (albums : List (Option Album)) (params : AlbumParameters)
    (hb : err.error = some body)
    (hcont : ∀ p ∈ pages, p.nextPageToken ≠ none) :
    ∃ e sents,
      albumLoop (pages.map Except.ok ++ Except.error err :: rest) albums params
        = (Outcome.returns { albums := albums ++ albumsConcat pages, error := some e }, sents)
      ∧ sents.length = pages.length + 1 := by
  induction pages generalizing albums params with
  | nil =>
    refine ⟨match body.error with
            | some e => e
            | none => { name := err.name, code := err.statusCode, message := err.message },
            [params], ?_, rfl⟩
    simp only [List.map_nil, List.nil_append, albumLoop, normalizeError, hb]
    cases hbe : body.error <;> simp [albumsConcat, hbe]
  | cons p ps ih =>
    have hc1 : p.nextPageToken ≠ none := hcont p (List.mem_cons_self p ps)
    have hc2 : ∀ q ∈ ps, q.nextPageToken ≠ none := fun q hq => hcont q (List.mem_cons_of_mem p hq)
    obtain ⟨e, sents, hrec, hlen⟩ := ih (albums ++ filterAlbumItems p)
      { params with pageToken := p.nextPageToken } hc2
    refine ⟨e, params :: sents, ?_, by simp [hlen]⟩
    simp only [List.map_cons, List.cons_append, albumLoop_cons_ok, List.append_eq]
    rw [if_pos]
    · rw [hrec]
      simp [albumsConcat, List.append_assoc]
    · simpa [Option.isSome_iff_ne_none] using hc1

/-- Claim C1: after processing a page, the search loop issues another
request if and only if the accumulated photo count is below
`config.photosToLoad` and that page supplied a non-null next-page token;
on a normal return the photos list is exactly the concatenation of the
filtered items of every fetched page (never truncated to the threshold),
and concrete runs exist whose final count strictly exceeds, respectively
falls short of, the threshold. -/
theorem C1_search_loop_contract :
    (∀ (cfg : Config) (photos : List (Option MediaItem)) (params : SearchParameters)
        (page : Page) (rest : List (Except Failure Page)),
       2 ≤ (searchLoop cfg (Except.ok page :: rest) photos params).2.length ↔
         (((photos ++ filterSearchItems page).length : Int) < cfg.photosToLoad ∧
           page.nextPageToken ≠ none)) ∧
    (∀ (cfg : Config) (params : SearchParameters) (pages : List Page)
        (r : SearchResult) (sents : List SearchParameters),
       libraryApiSearch cfg params (pages.map Except.ok) = (Outcome.returns r, sents) →
         r.photos = filteredConcat (pages.take sents.length) ∧ r.error = none) ∧
    (∃ (cfg : Config) (params : SearchParameters) (pages : List Page)
        (r : SearchResult) (sents : List SearchParameters),
       libraryApiSearch cfg params (pages.map Except.ok) = (Outcome.returns r, sents) ∧
         cfg.photosToLoad < (r.photos.length : Int)) ∧
    (∃ (cfg : Config) (params : SearchParameters) (pages : List Page)
        (r : SearchResult) (sents : List SearchParameters),
       libraryApiSearch cfg params (pages.map Except.ok) = (Outcome.returns r, sents) ∧
         (r.photos.length : Int) < cfg.photosToLoad) := by
  refine ⟨?_, ?_, ?_, ?_⟩
  · intro cfg photos params page rest
    simp only [searchLoop]
    split
    case isTrue hc =>
      simp only [List.length_cons]
      constructor
      · intro _
        simpa [Bool.and_eq_true, decide_eq_true_eq, Option.isSome_iff_ne_none] using hc
      · intro _
        have := searchLoop_sent_length_pos cfg rest (photos ++ filterSearchItems page)
          { params with pageToken := page.nextPageToken }
        omega
    case isFalse hc =>
      simp only [List.length_singleton]
      constructor
      · omega
      · intro hcond
        exact absurd (by simpa [Bool.and_eq_true, decide_eq_true_eq,
          Option.isSome_iff_ne_none] using hcond) hc
  · intro cfg params pages r sents h
    have := searchLoop_map_ok_spec cfg pages [] { params with pageSize := some cfg.searchPageSize }
      r sents h
    simpa using this
  · exact ⟨cfgC2, {}, [pageA, pageB, pageC],
      { photos := [imgItem 1, imgItem 2, imgItem 3, imgItem 4, imgItem 5, imgItem 6],
        parameters := { pageSize := some 3, pageToken := some "t2" }, error := none },
      [{ pageSize := some 3 }, { pageSize := some 3, pageToken := some "t1" }],
      by decide, by decide⟩
  · exact ⟨cfgC2, {}, [pageC],
      { photos := [imgItem 7, imgItem 8, imgItem 9],
        parameters := { pageSize := some 3, pageToken := none }, error := none },
      [{ pageSize := some 3 }],
      by decide, by decide⟩

/-- Witness for `C1_search_loop_contract`: the no-truncation component
applied to the one-page run over `pageC`. -/
theorem C1_search_loop_contract_witness :
    ({ photos := [imgItem 7, imgItem 8, imgItem 9],
       parameters := { pageSize := some 3, pageToken := none },
       error := none } : SearchResult).photos = filteredConcat [pageC] ∧
    ({ photos := [imgItem 7, imgItem 8, imgItem 9],
       parameters := { pageSize := some 3, pageToken := none },
       error := none } : SearchResult).error = none :=
  C1_search_loop_contract.2.1 cfgC2 {} [pageC]
    { photos := [imgItem 7, imgItem 8, imgItem 9],
      parameters := { pageSize := some 3, pageToken := none }, error := none }
    [{ pageSize := some 3 }] (by decide)

/-- Claim C2: with threshold 5 and search page size 3, against an API that
would serve three pages of three valid images each, the third having a null
next-page token, the search makes exactly 2 requests and returns 6 photos
with a null error. -/
theorem C2_threshold_scenario :
    libraryApiSearch cfgC2 {} [Except.ok pageA, Except.ok pageB, Except.ok pageC]
      = (Outcome.returns
          { photos := [imgItem 1, imgItem 2, imgItem 3, imgItem 4, imgItem 5, imgItem 6],
            parameters := { pageSize := some 3, pageToken := some "t2" },
            error := none },
         [{ pageSize := some 3 }, { pageSize := some 3, pageToken := some "t1" }]) ∧
    (libraryApiSearch cfgC2 {} [Except.ok pageA, Except.ok pageB, Except.ok pageC]).2.length = 2 := by
  decide

/-- Claim C3: as soon as a processed response carries no next-page token,
each loop returns right after processing that response — a single request
was issued from that point, whatever responses would follow. -/
theorem C3_null_token_terminates :
    (∀ (cfg : Config) (photos : List (Option MediaItem)) (params : SearchParameters)
        (page : Page) (rest : List (Except Failure Page)),
       page.nextPageToken = none →
         searchLoop cfg (Except.ok page :: rest) photos params
           = (Outcome.returns
               { photos := photos ++ filterSearchItems page,
                 parameters := { params with pageToken := none }, error := none },
              [params])) ∧
    (∀ (albums : List (Option Album)) (params : AlbumParameters)
        (page : AlbumPage) (rest : List (Except Failure AlbumPage)),
       page.nextPageToken = none →
         albumLoop (Except.ok page :: rest) albums params
           = (Outcome.returns
               { albums := albums ++ filterAlbumItems page, error := none },
              [params])) := by
  constructor
  · intro cfg photos params page rest hnone
    simp [searchLoop, hnone]
  · intro albums params page rest hnone
    simp [albumLoop_cons_ok, hnone]

/-- Witness for `C3_null_token_terminates` at the token-free page `pageC`. -/
theorem C3_null_token_terminates_witness :
    searchLoop cfgC2 [Except.ok pageC] [] { pageSize := some 3 }
      = (Outcome.returns
          { photos := [] ++ filterSearchItems pageC,
            parameters := { pageSize := some 3, pageToken := none }, error := none },
         [{ pageSize := some 3 }]) :=
  C3_null_token_terminates.1 cfgC2 [] { pageSize := some 3 } pageC [] rfl

/-- Claim C4: every element of a returned photos list is a non-null media
item whose `mimeType` starts with `image/`, and every element of a returned
albums list is non-null — for all runs, error returns included. -/
theorem C4_results_valid :
    (∀ (cfg : Config) (params : SearchParameters) (stream : List (Except Failure Page))
        (r : SearchResult) (sents : List SearchParameters),
       libraryApiSearch cfg params stream = (Outcome.returns r, sents) →
         ∀ x ∈ r.photos, ∃ m s, x = some m ∧ m.mimeType = some s ∧
           strStartsWith s "image/" = true) ∧
    (∀ (cfg : Config) (stream : List (Except Failure AlbumPage))
        (r : AlbumsResult) (sents : List AlbumParameters),
       libraryApiGetAlbums cfg stream = (Outcome.returns r, sents) →
         ∀ x ∈ r.albums, x ≠ none) := by
  constructor
  · intro cfg params stream r sents h x hx
    have hval := searchLoop_returns_photos_valid cfg stream []
      { params with pageSize := some cfg.searchPageSize } r sents (by simp) h x hx
    rcases x with _ | m
    · simp [isImageItem] at hval
    · rcases hs : m.mimeType with _ | s
      · simp [isImageItem, hs] at hval
      · refine ⟨m, s, rfl, hs, ?_⟩
        simpa [isImageItem, hs] using hval
  · intro cfg stream r sents h x hx
    have hval := albumLoop_returns_albums_valid stream []
      { pageSize := cfg.albumPageSize } r sents (by simp) h x hx
    exact Option.isSome_iff_ne_none.mp hval

/-- Witness for `C4_results_valid`: both components applied to one-page
runs over `pageMixed` and `apageN`. -/
theorem C4_results_valid_witness :
    (∃ m s, imgItem 21 = some m ∧ m.mimeType = some s ∧ strStartsWith s "image/" = true) ∧
    albItem 30 ≠ none :=
  ⟨C4_results_valid.1 cfgC2 {} [Except.ok pageMixed]
     { photos := [imgItem 21],
       parameters := { pageSize := some 3, pageToken := none }, error := none }
     [{ pageSize := some 3 }] (by decide) (imgItem 21) (by decide),
   C4_results_valid.2 cfgC2 [Except.ok apageN]
     { albums := [albItem 30], error := none }
     [{ pageSize := 50 }] (by decide) (albItem 30) (by decide)⟩

/-- Counterexample to claim C5 as stated: when the first request throws a
failure whose `error` field is undefined (`errPlain`), the search call does
not return a result at all — the catch handler itself raises a `TypeError`
— so no non-null error and no partial photos list is returned. -/
theorem C5_partial_results_counterexample :
    ¬ ∃ (r : SearchResult) (sents : List SearchParameters),
        libraryApiSearch cfgC2 {} [Except.error errPlain] = (Outcome.returns r, sents) ∧
          r.error ≠ none ∧ r.photos = [] := by
  rintro ⟨r, sents, h, -, -⟩
  have he : libraryApiSearch cfgC2 {} [Except.error errPlain]
      = (Outcome.throws JsError.typeError, [{ pageSize := some 3 }]) := by decide
  rw [he] at h
  simp at h

/-- Claim C5 amended: for every run in which the request at some iteration
fails with a failure whose `error` field is defined, the accumulator stops
immediately (no request beyond the failing one, whatever responses would
follow), the returned error is non-null, and the returned list is exactly
the items accumulated by the prior successful iterations. -/
theorem C5_partial_results_amended :
    (∀ (cfg : Config) (params : SearchParameters) (pages : List Page)
        (err : Failure) (body : ErrBody) (rest : List (Except Failure Page)),
       err.error = some body →
       allContinueB cfg [] pages = true →
         ∃ (e : ErrorShape) (ps' : SearchParameters) (sents : List SearchParameters),
           libraryApiSearch cfg params (pages.map Except.ok ++ Except.error err :: rest)
             = (Outcome.returns { photos := filteredConcat pages,
                                  parameters := ps', error := some e }, sents) ∧
           sents.length = pages.length + 1) ∧
    (∀ (cfg : Config) (pages : List AlbumPage)
        (err : Failure) (body : ErrBody) (rest : List (Except Failure AlbumPage)),
       err.error = some body →
       (∀ p ∈ pages, p.nextPageToken ≠ none) →
         ∃ (e : ErrorShape) (sents : List AlbumParameters),
           libraryApiGetAlbums cfg (pages.map Except.ok ++ Except.error err :: rest)
             = (Outcome.returns { albums := albumsConcat pages, error := some e }, sents) ∧
           sents.length = pages.length + 1) := by
  constructor
  · intro cfg params pages err body rest hb hcont
    have := searchLoop_failure_run cfg pages err body rest []
      { params with pageSize := some cfg.searchPageSize } hb hcont
    simpa [libraryApiSearch] using this
  · intro cfg pages err body rest hb hcont
    have := albumLoop_failure_run pages err body rest [] { pageSize := cfg.albumPageSize } hb hcont
    simpa [libraryApiGetAlbums] using this

/-- Witness for `C5_partial_results_amended`: one successful page, then a
failing request carrying `errX`. -/
theorem C5_partial_results_amended_witness :
    ∃ (e : ErrorShape) (ps' : SearchParameters) (sents : List SearchParameters),
      libraryApiSearch cfgC2 {} ([pageA].map Except.ok ++ Except.error errX :: [])
        = (Outcome.returns { photos := filteredConcat [pageA],
                             parameters := ps', error := some e }, sents) ∧
      sents.length = 2 :=
  C5_partial_results_amended.1 cfgC2 {} [pageA] errX { error := some shapeX } []
    rfl (by decide)

/-- Counterexample to claim C6 as stated: for the failure `errPlain`, whose
`error` field is undefined, no ErrorShape `{ name, code, message }` is
synthesized and returned — the call throws instead. -/
theorem C6_error_normalization_counterexample :
    ¬ ∃ (r : SearchResult) (sents : List SearchParameters),
        libraryApiSearch cfgC2 {} [Except.error errPlain] = (Outcome.returns r, sents) ∧
          r.error = some { name := errPlain.name, code := errPlain.statusCode,
                           message := errPlain.message } := by
  rintro ⟨r, sents, h, -⟩
  have he : libraryApiSearch cfgC2 {} [Except.error errPlain]
      = (Outcome.throws JsError.typeError, [{ pageSize := some 3 }]) := by decide
  rw [he] at h
  simp at h

/-- Claim C6 amended: for every request failure whose `error` field is
defined, a nested `error.error` value is returned verbatim as the
ErrorShape and otherwise `{ name, code, message }` is synthesized from the
failure's attributes; in particular a first search request failing with
`err.error.error = {name:"X", code:403, message:"Forbidden"}` yields
`{photos: [], error: that shape}`. -/
theorem C6_error_normalization_amended :
    (∀ (err : Failure) (body : ErrBody),
       err.error = some body →
         normalizeError err = Except.ok
           (match body.error with
            | some e => e
            | none => { name := err.name, code := err.statusCode, message := err.message })) ∧
    libraryApiSearch cfgC2 {} [Except.error errX]
      = (Outcome.returns { photos := [], parameters := { pageSize := some 3 },
                           error := some shapeX },
         [{ pageSize := some 3 }]) := by
  constructor
  · intro err body hb
    simp only [normalizeError, hb]
    cases hbe : body.error <;> simp [hbe]
  · decide

/-- Witness for `C6_error_normalization_amended` at the failure `errX`. -/
theorem C6_error_normalization_amended_witness :
    normalizeError errX = Except.ok shapeX :=
  C6_error_normalization_amended.1 errX { error := some shapeX } rfl

/-- Claim C7 is contradicted by the code: a failure whose `error` field is
undefined (`errPlain`) makes both accumulators raise a `TypeError` inside
the catch block (`err.error.error`, lines 72 and 121), which propagates to
the caller instead of being returned as a normalized error. -/
theorem C7_unguarded_catch_propagates :
    libraryApiSearch cfgC2 {} [Except.error errPlain]
      = (Outcome.throws JsError.typeError, [{ pageSize := some 3 }]) ∧
    libraryApiGetAlbums cfgC2 [Except.error errPlain]
      = (Outcome.throws JsError.typeError, [{ pageSize := 50 }]) := by
  decide

/-- Claim C8: the album loop has no minimum-count threshold — after a page
is processed it issues another request if and only if that page supplied a
non-null next-page token — and over three pages of five albums each, the
last one without token, it returns all 15 albums with a null error in
exactly 3 requests. -/
theorem C8_album_collects_all :
    (∀ (albums : List (Option Album)) (params : AlbumParameters)
        (page : AlbumPage) (rest : List (Except Failure AlbumPage)),
       2 ≤ (albumLoop (Except.ok page :: rest) albums params).2.length ↔
         page.nextPageToken ≠ none) ∧
    libraryApiGetAlbums cfgC2 [Except.ok apage1, Except.ok apage2, Except.ok apage3]
      = (Outcome.returns
          { albums := [albItem 1, albItem 2, albItem 3, albItem 4, albItem 5,
                       albItem 6, albItem 7, albItem 8, albItem 9, albItem 10,
                       albItem 11, albItem 12, albItem 13, albItem 14, albItem 15],
            error := none },
         [{ pageSize := 50 }, { pageSize := 50, pageToken := some "a1" },
          { pageSize := 50, pageToken := some "a2" }]) := by
  constructor
  · intro albums params page rest
    simp only [albumLoop_cons_ok]
    split
    case isTrue hc =>
      simp only [List.length_cons]
      constructor
      · intro _
        simpa [Option.isSome_iff_ne_none] using hc
      · intro _
        have := albumLoop_sent_length_pos rest (albums ++ filterAlbumItems page)
          { params with pageToken := page.nextPageToken }
        omega
    case isFalse hc =>
      simp only [List.length_singleton]
      constructor
      · omega
      · intro hcond
        exact absurd (by simpa [Option.isSome_iff_ne_none] using hcond) hc
  · decide

/-- Counterexample to claim C9 as stated: when the threshold is reached
while a next-page token is in hand, the caller-supplied parameters object
still carries that `pageToken` after the call returns, and a subsequent
call reusing the same object sends that leftover token with its very first
request. -/
theorem C9_pagination_state_counterexample :
    libraryApiSearch cfg9 {} stream9
      = (Outcome.returns r9,
         [{ pageSize := some 2 }, { pageSize := some 2, pageToken := some "u1" }]) ∧
    r9.parameters.pageToken ≠ none ∧
    r9.parameters.pageToken = some "u2" ∧
    (libraryApiSearch cfg9 r9.parameters stream9).2.head?
      = some { pageSize := some 2, pageToken := some "u2" } := by
  decide

/-- Claim C9 amended: within one call the loop owns `pageToken`,
overwriting it at every iteration, and the last written token persists in
the returned (caller-aliased) parameters object; the first request of every
call sends the caller's `pageToken` unchanged — only `pageSize` is reset —
so pagination state does carry over to a subsequent call reusing the same
object. -/
theorem C9_pageToken_persists_amended :
    (∀ (cfg : Config) (params : SearchParameters) (stream : List (Except Failure Page)),
       (libraryApiSearch cfg params stream).2.head?
         = some { params with pageSize := some cfg.searchPageSize }) ∧
    (∀ (cfg : Config) (photos : List (Option MediaItem)) (params : SearchParameters)
        (page : Page) (rest : List (Except Failure Page)),
       ¬(((photos ++ filterSearchItems page).length : Int) < cfg.photosToLoad ∧
           page.nextPageToken ≠ none) →
         searchLoop cfg (Except.ok page :: rest) photos params
           = (Outcome.returns
               { photos := photos ++ filterSearchItems page,
                 parameters := { params with pageToken := page.nextPageToken },
                 error := none }, [params])) := by
  constructor
  · intro cfg params stream
    cases stream with
    | nil => rfl
    | cons hd rest =>
      cases hd with
      | error err => rfl
      | ok result =>
        simp only [libraryApiSearch, searchLoop]
        split <;> simp
  · intro cfg photos params page rest hno
    simp only [searchLoop]
    rw [if_neg]
    simpa [Bool.and_eq_true, decide_eq_true_eq, Option.isSome_iff_ne_none] using hno

/-- Witness for `C9_pageToken_persists_amended`: the loop stops on `pg2`
with its token written into the returned parameters. -/
theorem C9_pageToken_persists_amended_witness :
    searchLoop cfg9 [Except.ok pg2] [imgItem 1, imgItem 2]
        { pageSize := some 2, pageToken := some "u1" }
      = (Outcome.returns
          { photos := [imgItem 1, imgItem 2] ++ filterSearchItems pg2,
            parameters := { pageSize := some 2, pageToken := pg2.nextPageToken },
            error := none },
         [{ pageSize := some 2, pageToken := some "u1" }]) :=
  C9_pageToken_persists_amended.2 cfg9 [imgItem 1, imgItem 2]
    { pageSize := some 2, pageToken := some "u1" } pg2 [] (by decide)

/-- Claim C10: both accumulators are do/while loops, so every call issues
at least one request — the search accumulator does so even when
`config.photosToLoad` is zero or negative. -/
theorem C10_do_while_at_least_one_request :
    (∀ (cfg : Config) (params : SearchParameters) (stream : List (Except Failure Page)),
       1 ≤ (libraryApiSearch cfg params stream).2.length) ∧
    (∀ (cfg : Config) (stream : List (Except Failure AlbumPage)),
       1 ≤ (libraryApiGetAlbums cfg stream).2.length) ∧
    (libraryApiSearch { photosToLoad := 0, searchPageSize := 3, albumPageSize := 50 } {}
       [Except.ok pageC]).2.length = 1 ∧
    (libraryApiSearch { photosToLoad := -7, searchPageSize := 3, albumPageSize := 50 } {}
       [Except.ok pageA]).2.length = 1 := by
  refine ⟨?_, ?_, by decide, by decide⟩
  · intro cfg params stream
    exact searchLoop_sent_length_pos cfg stream [] { params with pageSize := some cfg.searchPageSize }
  · intro cfg stream
    exact albumLoop_sent_length_pos stream [] { pageSize := cfg.albumPageSize }
